import Mathlib

/-!
Shallow embedding of src/media_softlet/agnostic/common/shared/media_debug_fast_dump_imp.hpp
(class MediaDebugFastDumpImp).

size_t values are embedded as natural numbers; every addition and
multiplication that the source performs in size_t is taken modulo 2^64.
External collaborators (the GMM resource-info query, pfnGetResourceInfo,
pfnAllocateResource, SurfaceCopy) are oracles: their results are inputs of
the embedded functions.
-/

/-- Modulus of the size_t arithmetic of the source (64-bit). -/
def W : Nat := 2 ^ 64

/-- size_t addition (wraps modulo 2^64). -/
def addw (a b : Nat) : Nat := (a + b) % W

/-- size_t multiplication (wraps modulo 2^64). -/
def mulw (a b : Nat) : Nat := a * b % W

/-- The fields of MOS_ALLOC_GFXRES_PARAMS that ResInfoCmp reads
(Type, dwWidth, dwHeight, Format); the enums and integers are embedded as
naturals. The source field named Type is rendered resType. -/
structure ResInfoKey where
  resType : Nat
  dwWidth : Nat
  dwHeight : Nat
  Format : Nat
deriving DecidableEq

/-- MediaDebugFastDumpImp::ResInfoCmp::operator() — the chained conditional
of source lines 344-347, transcribed branch for branch. -/
def ResInfoCmp (a b : ResInfoKey) : Bool :=
  if a.resType < b.resType then true
  else if a.dwWidth < b.dwWidth then true
  else if a.dwHeight < b.dwHeight then true
  else if a.Format < b.Format then true
  else false

/-- Lexicographic strict order over the four fields in the precedence
kind, width, height, format, following the spec wording; stated for
comparison with ResInfoCmp. -/
def lexLessSpec (a b : ResInfoKey) : Bool :=
  if a.resType ≠ b.resType then decide (a.resType < b.resType)
  else if a.dwWidth ≠ b.dwWidth then decide (a.dwWidth < b.dwWidth)
  else if a.dwHeight ≠ b.dwHeight then decide (a.dwHeight < b.dwHeight)
  else decide (a.Format < b.Format)

/-- Adapter memory sizes returned by MosInterface::GetAdapterInfo. -/
structure AdapterInfo where
  SystemSharedMemory : Nat
  DedicatedVideoMemory : Nat
deriving DecidableEq

/-- Tier capacities computed by the constructor (source lines 97-103): when
the adapter query succeeds, each cap is (mem / 100) * percent in size_t
arithmetic, otherwise both caps stay 0; afterwards a zero tier-1 cap is
replaced with (size_t)-1 = 2^64 - 1. -/
def ctorCaps (adapter : Option AdapterInfo) (maxPercentSharedMem maxPercentLocalMem : Nat) :
    Nat × Nat :=
  let cap1 :=
    match adapter with
    | some a => mulw (a.SystemSharedMemory % W / 100) maxPercentSharedMem
    | none => 0
  let cap2 :=
    match adapter with
    | some a => mulw (a.DedicatedVideoMemory % W / 100) maxPercentLocalMem
    | none => 0
  (if cap1 = 0 then W - 1 else cap1, cap2)

/-- Mos_MemPool policy constants carried by the two tiers
(MOS_MEMPOOL_SYSTEMMEMORY and MOS_MEMPOOL_VIDEOMEMORY). -/
inductive MemPool where
  | systemMemory
  | videoMemory
deriving DecidableEq

/-- MediaDebugFastDumpImp::MemMng — one memory tier (policy, cap, usage). -/
structure MemMng where
  policy : MemPool
  cap : Nat
  usage : Nat
deriving DecidableEq

/-- Result of one m_allocate call: success flag, the dwMemType the lambda
wrote into resInfo (none when it failed before choosing a tier), and both
tiers after the call. The backend pfnAllocateResource outcome is the oracle
argument backendOk. -/
structure AllocOut where
  ok : Bool
  memType : Option MemPool
  m1 : MemMng
  m2 : MemMng
deriving DecidableEq

/-- The m_allocate lambda installed when m_memMng2nd.cap > 0
(source lines 107-127). -/
def allocateTwoTier (m1 m2 : MemMng) (resSize : Nat) (backendOk : Bool) : AllocOut :=
  if addw m1.usage resSize > m1.cap then
    if addw m2.usage resSize > m2.cap then ⟨false, none, m1, m2⟩
    else
      if backendOk then
        ⟨true, some m2.policy,
          { m1 with usage := if m2.policy = m1.policy then addw m1.usage resSize else m1.usage },
          { m2 with usage := if m2.policy = m2.policy then addw m2.usage resSize else m2.usage }⟩
      else ⟨false, some m2.policy, m1, m2⟩
  else
    if backendOk then
      ⟨true, some m1.policy,
        { m1 with usage := if m1.policy = m1.policy then addw m1.usage resSize else m1.usage },
        { m2 with usage := if m1.policy = m2.policy then addw m2.usage resSize else m2.usage }⟩
    else ⟨false, some m1.policy, m1, m2⟩

/-- The m_allocate lambda installed when m_memMng2nd.cap = 0
(source lines 131-143). -/
def allocateOneTier (m1 m2 : MemMng) (resSize : Nat) (backendOk : Bool) : AllocOut :=
  if addw m1.usage resSize > m1.cap then ⟨false, none, m1, m2⟩
  else
    if backendOk then
      ⟨true, some m1.policy, { m1 with usage := addw m1.usage resSize }, m2⟩
    else ⟨false, some m1.policy, m1, m2⟩

/-- m_allocate — the constructor installs the two-tier lambda iff tier 2 has
a positive cap (source line 105); the cap fields never change afterwards, so
dispatching on the current m2.cap is equivalent. -/
def m_allocate (m1 m2 : MemMng) (resSize : Nat) (backendOk : Bool) : AllocOut :=
  if m2.cap > 0 then allocateTwoTier m1 m2 resSize backendOk
  else allocateOneTier m1 m2 resSize backendOk

/-- The m_writeError strategy (source lines 180-198): with informOnError it
hands the name name ++ "." ++ error and the one-byte payload [0] (the address
of the static uint8 dummy = 0 with size sizeof dummy = 1) to the configured
m_write; with informOnError off nothing is written. Only the written
name/payload is modelled; the detached-thread dispatch is not. -/
def m_writeError (informOnError : Bool) (name error : String) :
    Option (String × List Nat) :=
  if informOnError then some (name ++ "." ++ error, [0]) else none

/-- C2: evaluation of the source comparator at a concrete pair: with
a = (Type 1, width 0, height 0, format 0) and b = (Type 0, width 1, height 0,
format 0) the comparator answers true in both directions, so it is not a
strict order, and it differs from the four-field lexicographic order, which
answers false for (a, b) because a.Type > b.Type. -/
theorem resInfoCmp_not_lexicographic :
    ResInfoCmp ⟨1, 0, 0, 0⟩ ⟨0, 1, 0, 0⟩ = true
    ∧ ResInfoCmp ⟨0, 1, 0, 0⟩ ⟨1, 0, 0, 0⟩ = true
    ∧ lexLessSpec ⟨1, 0, 0, 0⟩ ⟨0, 1, 0, 0⟩ = false := by
  refine ⟨rfl, rfl, rfl⟩

/-- C3 counterexample: with shared memory 150 and percentage 50 the code
computes 150 / 100 * 50 = 50, not 150 * 50 / 100 = 75 as the claim states;
and with shared memory 50 and the nonzero percentage 75 the computed tier-1
cap is 0 and the code still replaces it with 2^64 - 1 (unbounded), which the
claim says must not happen when a nonzero percentage was configured. -/
theorem ctorCaps_counterexample :
    (ctorCaps (some ⟨150, 0⟩) 50 0).1 = 50
    ∧ (50 : Nat) ≠ 150 * 50 / 100
    ∧ (ctorCaps (some ⟨50, 0⟩) 75 0).1 = W - 1
    ∧ (75 : Nat) ≠ 0 := by
  refine ⟨by decide, by decide, by decide, by decide⟩

/-- C3 amended: each tier capacity is (queried memory mod 2^64) / 100 * percent
in size_t arithmetic; any zero computed tier-1 capacity — an adapter query
failure as well as a nonzero percentage on a small memory size — is replaced
by 2^64 - 1, i.e. unbounded; and with a zero tier-2 capacity the installed
allocator never touches tier 2. -/
theorem ctorCaps_formula_and_tier2_opt_out
    (a a2 : AdapterInfo) (p1 p2 q1 q2 : Nat) (m1 m2 : MemMng) (rs : Nat) (b : Bool)
    (h1 : mulw (a.SystemSharedMemory % W / 100) p1 ≠ 0)
    (hz : mulw (a2.SystemSharedMemory % W / 100) q1 = 0)
    (hcap2 : m2.cap = 0) :
    (ctorCaps (some a) p1 p2).1 = mulw (a.SystemSharedMemory % W / 100) p1
    ∧ (ctorCaps (some a) p1 p2).2 = mulw (a.DedicatedVideoMemory % W / 100) p2
    ∧ (ctorCaps (some a2) q1 q2).1 = W - 1
    ∧ (ctorCaps none p1 p2).1 = W - 1
    ∧ (m_allocate m1 m2 rs b).m2 = m2 := by
  refine ⟨?_, rfl, ?_, rfl, ?_⟩
  · simp only [ctorCaps, if_neg h1]
  · simp only [ctorCaps, if_pos hz]
  · simp only [m_allocate, hcap2]
    simp only [gt_iff_lt, Nat.lt_irrefl, if_false, allocateOneTier]
    split
    · rfl
    · split <;> rfl

/-- C3 amended witness: the amended capacity rule evaluated at adapter memory
(200, 300) with percentages 50 and 10, at the failing-computation adapter
memory (50, 0) with percentage 75, and at a tier-2 cap of 0. -/
theorem ctorCaps_formula_witness :
    (ctorCaps (some ⟨200, 300⟩) 50 10).1 = mulw (200 % W / 100) 50
    ∧ (ctorCaps (some ⟨200, 300⟩) 50 10).2 = mulw (300 % W / 100) 10
    ∧ (ctorCaps (some ⟨50, 0⟩) 75 0).1 = W - 1
    ∧ (ctorCaps none 50 10).1 = W - 1
    ∧ (m_allocate ⟨.systemMemory, 10, 0⟩ ⟨.videoMemory, 0, 0⟩ 3 true).m2
        = ⟨.videoMemory, 0, 0⟩ :=
  ctorCaps_formula_and_tier2_opt_out ⟨200, 300⟩ ⟨50, 0⟩ 50 10 75 0
    ⟨.systemMemory, 10, 0⟩ ⟨.videoMemory, 0, 0⟩ 3 true
    (by decide) (by decide) rfl

/-- C10 counterexample: the enabled error reporter persists the marker named
label.tag with a payload of one byte (the dummy byte 0), not zero bytes as
the claim states. -/
theorem writeError_payload_not_empty :
    m_writeError true "surf" "discarded" = some ("surf.discarded", [0])
    ∧ ([0] : List Nat).length ≠ 0 := by
  refine ⟨rfl, by decide⟩

/-- C10 amended: for every failed request the enabled reporter persists a
marker named exactly label ++ "." ++ tag whose payload is exactly one byte of
value 0, through the configured write strategy; a disabled reporter writes
nothing. -/
theorem writeError_marker_name_and_size (n e : String) :
    m_writeError true n e = some (n ++ "." ++ e, [0])
    ∧ m_writeError false n e = none := by
  exact ⟨rfl, rfl⟩

/-- One producer run against the allocator: each event carries the requested
size and the backend pfnAllocateResource success oracle. -/
def runAllocEvents (m1 m2 : MemMng) : List (Nat × Bool) → MemMng × MemMng
  | [] => (m1, m2)
  | ev :: evs =>
    let r := m_allocate m1 m2 ev.1 ev.2
    runAllocEvents r.m1 r.m2 evs

/-- Sizes of the events of a run that successfully allocated from tier 1
(the call succeeded and dwMemType got tier 1's policy). -/
def tier1Sizes (m1 m2 : MemMng) : List (Nat × Bool) → List Nat
  | [] => []
  | ev :: evs =>
    let r := m_allocate m1 m2 ev.1 ev.2
    (if r.ok = true ∧ r.memType = some m1.policy then [ev.1] else [])
      ++ tier1Sizes r.m1 r.m2 evs

/-- Sizes of the events of a run that successfully allocated from tier 2. -/
def tier2Sizes (m1 m2 : MemMng) : List (Nat × Bool) → List Nat
  | [] => []
  | ev :: evs =>
    let r := m_allocate m1 m2 ev.1 ev.2
    (if r.ok = true ∧ r.memType = some m2.policy then [ev.1] else [])
      ++ tier2Sizes r.m1 r.m2 evs

theorem m_allocate_usage1 (m1 m2 : MemMng) (rs : Nat) (b : Bool) :
    (m_allocate m1 m2 rs b).m1.usage =
      if (m_allocate m1 m2 rs b).ok = true
          ∧ (m_allocate m1 m2 rs b).memType = some m1.policy
      then addw m1.usage rs else m1.usage := by
  simp only [m_allocate, allocateTwoTier, allocateOneTier]
  repeat' split
  all_goals simp_all

theorem m_allocate_usage2 (m1 m2 : MemMng) (rs : Nat) (b : Bool)
    (hpol : m1.policy ≠ m2.policy) :
    (m_allocate m1 m2 rs b).m2.usage =
      if (m_allocate m1 m2 rs b).ok = true
          ∧ (m_allocate m1 m2 rs b).memType = some m2.policy
      then addw m2.usage rs else m2.usage := by
  simp only [m_allocate, allocateTwoTier, allocateOneTier]
  repeat' split
  all_goals simp_all

theorem m_allocate_shape (m1 m2 : MemMng) (rs : Nat) (b : Bool) :
    (m_allocate m1 m2 rs b).m1.cap = m1.cap
    ∧ (m_allocate m1 m2 rs b).m2.cap = m2.cap
    ∧ (m_allocate m1 m2 rs b).m1.policy = m1.policy
    ∧ (m_allocate m1 m2 rs b).m2.policy = m2.policy := by
  simp only [m_allocate, allocateTwoTier, allocateOneTier]
  repeat' split
  all_goals simp

theorem m_allocate_fail (m1 m2 : MemMng) (rs : Nat) (b : Bool)
    (h : (m_allocate m1 m2 rs b).ok = false) :
    (m_allocate m1 m2 rs b).m1 = m1 ∧ (m_allocate m1 m2 rs b).m2 = m2 := by
  revert h
  simp only [m_allocate, allocateTwoTier, allocateOneTier]
  repeat' split
  all_goals simp

theorem m_allocate_ok_iff (n1 n2 : MemMng) (rs : Nat) (b : Bool) :
    (m_allocate n1 n2 rs b).ok = true
      ↔ (b = true
          ∧ (addw n1.usage rs ≤ n1.cap ∨ (0 < n2.cap ∧ addw n2.usage rs ≤ n2.cap))) := by
  simp only [m_allocate, allocateTwoTier, allocateOneTier]
  repeat' split
  all_goals simp_all

theorem W_pos : 0 < W := by decide

theorem addw_lt (a b : Nat) : addw a b < W := Nat.mod_lt _ W_pos

theorem m_allocate_bound (m1 m2 : MemMng) (rs : Nat) (b : Bool)
    (hpol : m1.policy ≠ m2.policy)
    (h1 : m1.usage ≤ m1.cap) (h2 : m2.usage ≤ m2.cap) :
    (m_allocate m1 m2 rs b).m1.usage ≤ m1.cap
    ∧ (m_allocate m1 m2 rs b).m2.usage ≤ m2.cap := by
  simp only [m_allocate, allocateTwoTier, allocateOneTier]
  repeat' split
  all_goals simp_all

theorem runAlloc_inv (evs : List (Nat × Bool)) :
    ∀ m1 m2 : MemMng, m1.policy ≠ m2.policy →
      m1.usage ≤ m1.cap → m2.usage ≤ m2.cap →
      (runAllocEvents m1 m2 evs).1.cap = m1.cap
      ∧ (runAllocEvents m1 m2 evs).2.cap = m2.cap
      ∧ (runAllocEvents m1 m2 evs).1.usage ≤ m1.cap
      ∧ (runAllocEvents m1 m2 evs).2.usage ≤ m2.cap := by
  induction evs with
  | nil =>
    intro m1 m2 hpol h1 h2
    exact ⟨rfl, rfl, h1, h2⟩
  | cons ev evs ih =>
    intro m1 m2 hpol h1 h2
    obtain ⟨s1, s2, s3, s4⟩ := m_allocate_shape m1 m2 ev.1 ev.2
    obtain ⟨b1, b2⟩ := m_allocate_bound m1 m2 ev.1 ev.2 hpol h1 h2
    have h := ih (m_allocate m1 m2 ev.1 ev.2).m1 (m_allocate m1 m2 ev.1 ev.2).m2
      (by rw [s3, s4]; exact hpol) (by rw [s1]; exact b1) (by rw [s2]; exact b2)
    rw [s1, s2] at h
    simpa only [runAllocEvents] using h

theorem runAlloc_conservation1 (evs : List (Nat × Bool)) :
    ∀ m1 m2 : MemMng, m1.usage < W →
      (runAllocEvents m1 m2 evs).1.usage
        = (m1.usage + (tier1Sizes m1 m2 evs).sum) % W := by
  induction evs with
  | nil =>
    intro m1 m2 h
    simp [runAllocEvents, tier1Sizes, Nat.mod_eq_of_lt h]
  | cons ev evs ih =>
    intro m1 m2 h
    have hr := m_allocate_usage1 m1 m2 ev.1 ev.2
    simp only [runAllocEvents, tier1Sizes]
    by_cases c : (m_allocate m1 m2 ev.1 ev.2).ok = true
        ∧ (m_allocate m1 m2 ev.1 ev.2).memType = some m1.policy
    · rw [if_pos c] at hr
      rw [ih _ _ (by rw [hr]; exact addw_lt _ _), hr, if_pos c]
      simp [addw, Nat.mod_add_mod, Nat.add_assoc]
    · rw [if_neg c] at hr
      rw [ih _ _ (by rw [hr]; exact h), hr, if_neg c]
      simp

theorem runAlloc_conservation2 (evs : List (Nat × Bool)) :
    ∀ m1 m2 : MemMng, m1.policy ≠ m2.policy → m2.usage < W →
      (runAllocEvents m1 m2 evs).2.usage
        = (m2.usage + (tier2Sizes m1 m2 evs).sum) % W := by
  induction evs with
  | nil =>
    intro m1 m2 hpol h
    simp [runAllocEvents, tier2Sizes, Nat.mod_eq_of_lt h]
  | cons ev evs ih =>
    intro m1 m2 hpol h
    have hr := m_allocate_usage2 m1 m2 ev.1 ev.2 hpol
    obtain ⟨s1, s2, s3, s4⟩ := m_allocate_shape m1 m2 ev.1 ev.2
    have hpol2 : (m_allocate m1 m2 ev.1 ev.2).m1.policy
        ≠ (m_allocate m1 m2 ev.1 ev.2).m2.policy := by rw [s3, s4]; exact hpol
    simp only [runAllocEvents, tier2Sizes]
    by_cases c : (m_allocate m1 m2 ev.1 ev.2).ok = true
        ∧ (m_allocate m1 m2 ev.1 ev.2).memType = some m2.policy
    · rw [if_pos c] at hr
      rw [ih _ _ hpol2 (by rw [hr]; exact addw_lt _ _), hr, if_pos c]
      simp [addw, Nat.mod_add_mod, Nat.add_assoc]
    · rw [if_neg c] at hr
      rw [ih _ _ hpol2 (by rw [hr]; exact h), hr, if_neg c]
      simp

/-- C6 counterexample: with the unbounded tier-1 cap 2^64 - 1, two successful
tier-1 allocations of 2^63 bytes each drive the size_t usage counter through
a wraparound: the final usedBytes is 0, not the sum 2^63 + 2^63 of the sizes
of the buffers successfully allocated from the tier. -/
theorem allocator_usage_wraps_counterexample :
    tier1Sizes ⟨.systemMemory, W - 1, 0⟩ ⟨.videoMemory, 0, 0⟩
        [(2 ^ 63, true), (2 ^ 63, true)] = [2 ^ 63, 2 ^ 63]
    ∧ (runAllocEvents ⟨.systemMemory, W - 1, 0⟩ ⟨.videoMemory, 0, 0⟩
        [(2 ^ 63, true), (2 ^ 63, true)]).1.usage = 0
    ∧ (0 : Nat) ≠ 2 ^ 63 + 2 ^ 63 := by
  refine ⟨by decide, by decide, by decide⟩

/-- C6 amended: over every run of allocation requests, each tier's usedBytes
equals its initial usage plus the sum of the sizes of the requests that
successfully allocated from that tier, reduced modulo 2^64 (the size_t
accumulator of the source); no operation ever decreases a usage counter;
usedBytes never exceeds capacityBytes; and a single call succeeds exactly
when the backend allocation succeeded and the size_t budget check
usage + size <= capacity passed for tier 1, or for a configured (positive
capacity) tier 2. -/
theorem allocator_usage_conservation (m1 m2 : MemMng) (evs : List (Nat × Bool))
    (n1 n2 : MemMng) (rs : Nat) (b : Bool)
    (hpol : m1.policy ≠ m2.policy)
    (hu1 : m1.usage ≤ m1.cap) (hu2 : m2.usage ≤ m2.cap)
    (hc1 : m1.cap < W) (hc2 : m2.cap < W) :
    (runAllocEvents m1 m2 evs).1.usage = (m1.usage + (tier1Sizes m1 m2 evs).sum) % W
    ∧ (runAllocEvents m1 m2 evs).2.usage = (m2.usage + (tier2Sizes m1 m2 evs).sum) % W
    ∧ (runAllocEvents m1 m2 evs).1.usage ≤ m1.cap
    ∧ (runAllocEvents m1 m2 evs).2.usage ≤ m2.cap
    ∧ ((m_allocate n1 n2 rs b).ok = true
        ↔ (b = true
            ∧ (addw n1.usage rs ≤ n1.cap ∨ (0 < n2.cap ∧ addw n2.usage rs ≤ n2.cap)))) := by
  obtain ⟨-, -, i3, i4⟩ := runAlloc_inv evs m1 m2 hpol hu1 hu2
  exact ⟨runAlloc_conservation1 evs m1 m2 (Nat.lt_of_le_of_lt hu1 hc1),
    runAlloc_conservation2 evs m1 m2 hpol (Nat.lt_of_le_of_lt hu2 hc2),
    i3, i4, m_allocate_ok_iff n1 n2 rs b⟩

/-- C6 amended witness: the conservation statement evaluated on the concrete
run (30 ok, 80 ok) against tier caps 100 and 90: the first request lands in
tier 1, the second overflows tier 1's budget and lands in tier 2. -/
theorem allocator_usage_conservation_witness :
    (runAllocEvents ⟨.systemMemory, 100, 0⟩ ⟨.videoMemory, 90, 0⟩
        [(30, true), (80, true)]).1.usage
      = (0 + (tier1Sizes ⟨.systemMemory, 100, 0⟩ ⟨.videoMemory, 90, 0⟩
        [(30, true), (80, true)]).sum) % W
    ∧ (runAllocEvents ⟨.systemMemory, 100, 0⟩ ⟨.videoMemory, 90, 0⟩
        [(30, true), (80, true)]).2.usage
      = (0 + (tier2Sizes ⟨.systemMemory, 100, 0⟩ ⟨.videoMemory, 90, 0⟩
        [(30, true), (80, true)]).sum) % W
    ∧ (runAllocEvents ⟨.systemMemory, 100, 0⟩ ⟨.videoMemory, 90, 0⟩
        [(30, true), (80, true)]).1.usage ≤ 100
    ∧ (runAllocEvents ⟨.systemMemory, 100, 0⟩ ⟨.videoMemory, 90, 0⟩
        [(30, true), (80, true)]).2.usage ≤ 90
    ∧ ((m_allocate ⟨.systemMemory, 100, 30⟩ ⟨.videoMemory, 90, 0⟩ 80 true).ok = true
        ↔ (true = true
            ∧ (addw 30 80 ≤ 100 ∨ (0 < 90 ∧ addw 0 80 ≤ 90)))) :=
  allocator_usage_conservation ⟨.systemMemory, 100, 0⟩ ⟨.videoMemory, 90, 0⟩
    [(30, true), (80, true)] ⟨.systemMemory, 100, 30⟩ ⟨.videoMemory, 90, 0⟩ 80 true
    (by decide) (by decide) (by decide) (by decide) (by decide)

/-- MediaDebugFastDumpImp::Res — one pooled staging buffer; the hardware
resource handle itself stays abstract. The defaults are the field defaults of
struct Res (occupied false, sizes 0, empty name). -/
structure Buffer where
  occupied : Bool
  size : Nat
  offset : Nat
  name : String
deriving DecidableEq

/-- The state AddTask touches: the bucket m_resPool[resInfo] of the submitted
shape, the FIFO m_resQueue (modelled by the job records pushed), both memory
tiers, and the log of m_writeError calls (name, tag). -/
structure PipeState where
  bucket : List Buffer
  queue : List Buffer
  m1 : MemMng
  m2 : MemMng
  errors : List (String × String)
deriving DecidableEq

/-- The configuration fields AddTask reads. -/
structure Config where
  allowDataLoss : Bool
  samplingTime : Nat
  samplingInterval : Nat
deriving DecidableEq

/-- One AddTask submission together with the oracle answers of the external
collaborators: gmmSize is GetSizeMainSurface (none = null pGmmResInfo),
getResInfoOk the pfnGetResourceInfo status, backendAllocOk the
pfnAllocateResource status, copyOk the SurfaceCopy status. -/
structure AddTaskInput where
  name : String
  dumpSize : Nat
  offset : Nat
  gmmSize : Option Nat
  getResInfoOk : Bool
  backendAllocOk : Bool
  copyOk : Bool
deriving DecidableEq

/-- What one AddTask call did: skipped by the sampling gate, dropped with an
error tag, blocked on the condition variable, or staged the job on the buffer
at the given bucket index. -/
inductive Outcome where
  | gateSkip
  | errDrop (tag : String)
  | blocked
  | staged (idx : Nat)
deriving DecidableEq

/-- The m_2CacheTask sampling gate (source lines 79-89): the window sum
m_samplingTime + m_samplingInterval is arithmetic on
duration<size_t, milli> values (MS, source line 337), so it wraps modulo
2^64. If the wrapped sum is zero the constructor installs the
always-true lambda, otherwise the installed lambda answers whether
elapsed mod wrappedSum <= samplingTime, all values in milliseconds. -/
def m_2CacheTask (samplingTime samplingInterval elapsed : Nat) : Bool :=
  if addw samplingTime samplingInterval = 0 then true
  else decide (elapsed % addw samplingTime samplingInterval ≤ samplingTime)

/-- Record one m_writeError call. -/
def pushErr (s : PipeState) (n e : String) : PipeState :=
  { s with errors := s.errors ++ [(n, e)] }

/-- Index of the first unoccupied buffer of a bucket — the std::find_if of
source lines 283-288. -/
def findFreeIdx : List Buffer → Option Nat
  | [] => none
  | b :: bs =>
    if b.occupied = false then some 0
    else (findFreeIdx bs).map (fun i => i + 1)

/-- The tail of AddTask once a buffer at bucket index i has been acquired
(source lines 319-329): surface copy, then fill the job fields, mark the
buffer occupied and push it onto m_resQueue. On copy failure the request is
dropped and the buffer stays unoccupied. -/
def stagePath (inp : AddTaskInput) (resSize : Nat) (i : Nat) (s : PipeState) :
    Outcome × PipeState :=
  if inp.copyOk = false then
    (.errDrop "surface_copy_failed", pushErr s inp.name "surface_copy_failed")
  else
    let b : Buffer :=
      ⟨true, if inp.dumpSize = 0 then resSize - inp.offset else inp.dumpSize,
        inp.offset, inp.name⟩
    (.staged i, { s with bucket := s.bucket.set i b, queue := s.queue ++ [b] })

/-- MediaDebugFastDumpImp::AddTask (source lines 233-333). elapsed is the
time since construction observed by the sampling gate. The condition-variable
wait of lines 300-310 is modelled by the blocked outcome; resumeWake below is
its continuation. -/
def AddTask (cfg : Config) (elapsed : Nat) (inp : AddTaskInput) (s : PipeState) :
    Outcome × PipeState :=
  if m_2CacheTask cfg.samplingTime cfg.samplingInterval elapsed = false then
    (.gateSkip, s)
  else
    match inp.gmmSize with
    | none => (.errDrop "get_surface_size_failed",
        pushErr s inp.name "get_surface_size_failed")
    | some resSize =>
      if resSize < addw inp.offset inp.dumpSize then
        (.errDrop "incorrect_size_offset", pushErr s inp.name "incorrect_size_offset")
      else if inp.getResInfoOk = false then
        (.errDrop "get_resource_info_failed",
          pushErr s inp.name "get_resource_info_failed")
      else
        match findFreeIdx s.bucket with
        | some i => stagePath inp resSize i s
        | none =>
          let r := m_allocate s.m1 s.m2 resSize inp.backendAllocOk
          if r.ok then
            let s1 := { s with bucket := s.bucket ++ [⟨false, 0, 0, ""⟩],
                               m1 := r.m1, m2 := r.m2 }
            stagePath inp resSize (s1.bucket.length - 1) s1
          else if cfg.allowDataLoss = false ∧ s.bucket ≠ [] then
            (.blocked, { s with m1 := r.m1, m2 := r.m2 })
          else
            (.errDrop "discarded",
              pushErr { s with m1 := r.m1, m2 := r.m2 } inp.name "discarded")

/-- Continuation of a blocked AddTask: the condition-variable predicate
re-runs the find_if and the call proceeds only once a free buffer exists
(source lines 300-310), after which control falls through to the copy. -/
def resumeWake (inp : AddTaskInput) (resSize : Nat) (s : PipeState) :
    Outcome × PipeState :=
  match findFreeIdx s.bucket with
  | some i => stagePath inp resSize i s
  | none => (.blocked, s)

/-- C4 counterexample: with samplingTime = 100 ms and samplingInterval =
2^64 - 50 ms — representable duration<size_t, milli> counts, not both zero —
the size_t window sum wraps to 50, the constructor installs the modulo
lambda over that wrapped period, and the gate answers true at
elapsed = 200 ms (200 mod 50 = 0 <= 100) although the claimed formula
elapsed mod (activeWindow + idleWindow) <= activeWindow is false there
(200 mod (2^64 + 50) = 200 > 100). -/
theorem samplingGate_wrap_counterexample :
    m_2CacheTask 100 (2 ^ 64 - 50) 200 = true
    ∧ ¬(200 % (100 + (2 ^ 64 - 50)) ≤ 100)
    ∧ ¬(100 = 0 ∧ 2 ^ 64 - 50 = 0) := by
  refine ⟨by decide, by decide, by decide⟩

/-- C4 amended: the gate computes the window sum in size_t (mod 2^64)
arithmetic. When both configured durations are zero — and more generally
whenever the wrapped sum is zero — every call answers true; when the wrapped
sum is nonzero the gate answers true iff
elapsed mod (wrapped samplingTime + samplingInterval) <= samplingTime; and a
submission rejected by the gate returns with the pool, the queue, the tiers
and the error log untouched. -/
theorem samplingGate_spec_wrapped (st si e z1 z2 ez st2 si2 e2 : Nat)
    (cfg : Config) (el : Nat) (inp : AddTaskInput) (s : PipeState)
    (h0 : st = 0 ∧ si = 0) (hz : addw z1 z2 = 0) (h2 : addw st2 si2 ≠ 0)
    (hg : m_2CacheTask cfg.samplingTime cfg.samplingInterval el = false) :
    m_2CacheTask st si e = true
    ∧ m_2CacheTask z1 z2 ez = true
    ∧ (m_2CacheTask st2 si2 e2 = true ↔ e2 % addw st2 si2 ≤ st2)
    ∧ AddTask cfg el inp s = (.gateSkip, s) := by
  obtain ⟨h0a, h0b⟩ := h0
  refine ⟨?_, ?_, ?_, ?_⟩
  · simp [m_2CacheTask, addw, h0a, h0b]
  · simp [m_2CacheTask, hz]
  · simp [m_2CacheTask, h2]
  · simp [AddTask, hg]

/-- C4 amended witness: both durations zero at elapsed 5; the wrap-to-zero
configuration 100 / 2^64 - 100 at elapsed 123; active 100 / idle 50 at
elapsed 120 (120 mod 150 = 120 > 100, hence rejected); and a gate-rejected
submission at that last configuration is a silent no-op. -/
theorem samplingGate_spec_wrapped_witness :
    m_2CacheTask 0 0 5 = true
    ∧ m_2CacheTask 100 (2 ^ 64 - 100) 123 = true
    ∧ (m_2CacheTask 100 50 120 = true ↔ 120 % addw 100 50 ≤ 100)
    ∧ AddTask ⟨true, 100, 50⟩ 120 ⟨"n", 1, 0, some 4, true, true, true⟩
        ⟨[], [], ⟨.systemMemory, 10, 0⟩, ⟨.videoMemory, 0, 0⟩, []⟩
      = (.gateSkip, ⟨[], [], ⟨.systemMemory, 10, 0⟩, ⟨.videoMemory, 0, 0⟩, []⟩) :=
  samplingGate_spec_wrapped 0 0 5 100 (2 ^ 64 - 100) 123 100 50 120
    ⟨true, 100, 50⟩ 120 ⟨"n", 1, 0, some 4, true, true, true⟩
    ⟨[], [], ⟨.systemMemory, 10, 0⟩, ⟨.videoMemory, 0, 0⟩, []⟩
    (by decide) (by decide) (by decide) (by decide)

/-- C5 counterexample: a submission with offset 2^63 and dumpSize 2^63
against a resource of size 5 has offset + dumpSize = 2^64 > 5, yet the size_t
sum wraps to 0, the check resSize < offset + dumpSize fails to fire, no
incorrect_size_offset marker is reported, the request allocates a buffer
(tier-1 usage becomes 5) and is staged. -/
theorem addTask_size_check_wraps_counterexample :
    (AddTask ⟨true, 0, 0⟩ 0 ⟨"t", 2 ^ 63, 2 ^ 63, some 5, true, true, true⟩
        ⟨[], [], ⟨.systemMemory, W - 1, 0⟩, ⟨.videoMemory, 0, 0⟩, []⟩).1
      = .staged 0
    ∧ (AddTask ⟨true, 0, 0⟩ 0 ⟨"t", 2 ^ 63, 2 ^ 63, some 5, true, true, true⟩
        ⟨[], [], ⟨.systemMemory, W - 1, 0⟩, ⟨.videoMemory, 0, 0⟩, []⟩).2.m1.usage = 5
    ∧ (5 : Nat) < 2 ^ 63 + 2 ^ 63 := by
  refine ⟨by decide, by decide, by decide⟩

/-- C5 amended: with the size comparison taken in size_t (mod 2^64)
arithmetic as the source computes it: a null GMM resource info yields the
get_surface_size_failed marker and drops the request; a wrapped
offset + dumpSize strictly greater than the resource size yields the
incorrect_size_offset marker and drops the request, touching nothing but the
error log (no allocation, no queue change); and a submission with wrapped
offset + dumpSize exactly equal to the resource size passes the validation:
it never produces either size error. -/
theorem addTask_size_validation (cfg : Config) (el : Nat)
    (inp1 inp2 inp3 : AddTaskInput) (s1 s2 s3 : PipeState) (rs2 rs3 : Nat)
    (hg : m_2CacheTask cfg.samplingTime cfg.samplingInterval el = true)
    (h1 : inp1.gmmSize = none)
    (h2a : inp2.gmmSize = some rs2) (h2b : rs2 < addw inp2.offset inp2.dumpSize)
    (h3a : inp3.gmmSize = some rs3) (h3b : addw inp3.offset inp3.dumpSize = rs3) :
    AddTask cfg el inp1 s1
      = (.errDrop "get_surface_size_failed",
          pushErr s1 inp1.name "get_surface_size_failed")
    ∧ AddTask cfg el inp2 s2
      = (.errDrop "incorrect_size_offset",
          pushErr s2 inp2.name "incorrect_size_offset")
    ∧ (AddTask cfg el inp3 s3).1 ≠ .errDrop "incorrect_size_offset"
    ∧ (AddTask cfg el inp3 s3).1 ≠ .errDrop "get_surface_size_failed" := by
  have hlt : ¬ (rs3 < addw inp3.offset inp3.dumpSize) := by
    rw [h3b]; exact Nat.lt_irrefl rs3
  refine ⟨?_, ?_, ?_, ?_⟩
  · simp [AddTask, hg, h1]
  · simp [AddTask, hg, h2a, h2b]
  · simp only [AddTask, hg, h3a, stagePath]
    repeat' split
    all_goals simp_all
  · simp only [AddTask, hg, h3a, stagePath]
    repeat' split
    all_goals simp_all

/-- C5 amended witness: a null GMM info, a genuine overshoot (offset 3 +
dumpSize 4 > size 5), and an exact fit (offset 3 + dumpSize 2 = size 5),
each on a fresh pipeline state. -/
theorem addTask_size_validation_witness :
    AddTask ⟨true, 0, 0⟩ 0 ⟨"a", 4, 3, none, true, true, true⟩
        ⟨[], [], ⟨.systemMemory, 10, 0⟩, ⟨.videoMemory, 0, 0⟩, []⟩
      = (.errDrop "get_surface_size_failed",
          pushErr ⟨[], [], ⟨.systemMemory, 10, 0⟩, ⟨.videoMemory, 0, 0⟩, []⟩
            "a" "get_surface_size_failed")
    ∧ AddTask ⟨true, 0, 0⟩ 0 ⟨"b", 4, 3, some 5, true, true, true⟩
        ⟨[], [], ⟨.systemMemory, 10, 0⟩, ⟨.videoMemory, 0, 0⟩, []⟩
      = (.errDrop "incorrect_size_offset",
          pushErr ⟨[], [], ⟨.systemMemory, 10, 0⟩, ⟨.videoMemory, 0, 0⟩, []⟩
            "b" "incorrect_size_offset")
    ∧ (AddTask ⟨true, 0, 0⟩ 0 ⟨"c", 2, 3, some 5, true, true, true⟩
        ⟨[], [], ⟨.systemMemory, 10, 0⟩, ⟨.videoMemory, 0, 0⟩, []⟩).1
      ≠ .errDrop "incorrect_size_offset"
    ∧ (AddTask ⟨true, 0, 0⟩ 0 ⟨"c", 2, 3, some 5, true, true, true⟩
        ⟨[], [], ⟨.systemMemory, 10, 0⟩, ⟨.videoMemory, 0, 0⟩, []⟩).1
      ≠ .errDrop "get_surface_size_failed" :=
  addTask_size_validation ⟨true, 0, 0⟩ 0
    ⟨"a", 4, 3, none, true, true, true⟩ ⟨"b", 4, 3, some 5, true, true, true⟩
    ⟨"c", 2, 3, some 5, true, true, true⟩
    ⟨[], [], ⟨.systemMemory, 10, 0⟩, ⟨.videoMemory, 0, 0⟩, []⟩
    ⟨[], [], ⟨.systemMemory, 10, 0⟩, ⟨.videoMemory, 0, 0⟩, []⟩
    ⟨[], [], ⟨.systemMemory, 10, 0⟩, ⟨.videoMemory, 0, 0⟩, []⟩
    5 5 (by decide) rfl rfl (by decide) rfl (by decide)

/-- C9: with allowDataLoss=true, when the bucket has no free buffer and the
allocation attempt fails, AddTask drops the submission: it is not staged, the
bucket, the queue and both tiers are untouched, and exactly the one marker
(name, discarded) is appended to the error log. -/
theorem addTask_discard_on_data_loss (cfg : Config) (el : Nat) (inp : AddTaskInput)
    (s : PipeState) (rs : Nat)
    (hg : m_2CacheTask cfg.samplingTime cfg.samplingInterval el = true)
    (hdl : cfg.allowDataLoss = true)
    (hgmm : inp.gmmSize = some rs) (hsz : ¬ rs < addw inp.offset inp.dumpSize)
    (hri : inp.getResInfoOk = true)
    (hfree : findFreeIdx s.bucket = none)
    (halloc : (m_allocate s.m1 s.m2 rs inp.backendAllocOk).ok = false) :
    AddTask cfg el inp s = (.errDrop "discarded", pushErr s inp.name "discarded") := by
  obtain ⟨f1, f2⟩ := m_allocate_fail s.m1 s.m2 rs inp.backendAllocOk halloc
  simp [AddTask, hg, hgmm, hsz, hri, hfree, halloc, hdl, f1, f2]

/-- C9 witness: allowDataLoss=true, a bucket whose only buffer is occupied,
tier-1 cap 10 exhausted by a 16-byte request, tier 2 unconfigured: the
submission is discarded with exactly one (n, discarded) marker. -/
theorem addTask_discard_on_data_loss_witness :
    AddTask ⟨true, 0, 0⟩ 0 ⟨"n", 16, 0, some 16, true, false, true⟩
        ⟨[⟨true, 1, 0, "x"⟩], [], ⟨.systemMemory, 10, 0⟩, ⟨.videoMemory, 0, 0⟩, []⟩
      = (.errDrop "discarded",
          pushErr ⟨[⟨true, 1, 0, "x"⟩], [], ⟨.systemMemory, 10, 0⟩,
            ⟨.videoMemory, 0, 0⟩, []⟩ "n" "discarded") :=
  addTask_discard_on_data_loss ⟨true, 0, 0⟩ 0 ⟨"n", 16, 0, some 16, true, false, true⟩
    ⟨[⟨true, 1, 0, "x"⟩], [], ⟨.systemMemory, 10, 0⟩, ⟨.videoMemory, 0, 0⟩, []⟩ 16
    (by decide) rfl rfl (by decide) rfl (by decide) (by decide)

/-- C1 counterexample: with allowDataLoss=false, an empty bucket and a failed
allocation, AddTask does not block: it reports the discarded marker and
returns, contradicting the claim that it never drops even when the bucket
holds no buffers at all. -/
theorem addTask_empty_bucket_discards :
    (AddTask ⟨false, 0, 0⟩ 0 ⟨"t", 16, 0, some 16, true, false, true⟩
        ⟨[], [], ⟨.systemMemory, 10, 0⟩, ⟨.videoMemory, 0, 0⟩, []⟩).1
      = .errDrop "discarded"
    ∧ (⟨false, 0, 0⟩ : Config).allowDataLoss = false := by
  refine ⟨by decide, rfl⟩

/-- C1 amended: with allowDataLoss=false, no free buffer, a failed allocation
and a NON-EMPTY bucket, AddTask blocks on the condition variable with all
state untouched (in particular no discarded marker is ever reported on this
path), and once the wait predicate finds a freed buffer at index i, the call
resumes and stages the dump on that buffer; with an empty bucket the request
is instead discarded (see the counterexample). -/
theorem addTask_blocks_nonempty_bucket (cfg : Config) (el : Nat) (inp : AddTaskInput)
    (s t : PipeState) (rs : Nat) (i : Nat)
    (hg : m_2CacheTask cfg.samplingTime cfg.samplingInterval el = true)
    (hdl : cfg.allowDataLoss = false)
    (hgmm : inp.gmmSize = some rs) (hsz : ¬ rs < addw inp.offset inp.dumpSize)
    (hri : inp.getResInfoOk = true)
    (hfree : findFreeIdx s.bucket = none) (hne : s.bucket ≠ [])
    (halloc : (m_allocate s.m1 s.m2 rs inp.backendAllocOk).ok = false)
    (hwake : findFreeIdx t.bucket = some i) (hcopy : inp.copyOk = true) :
    AddTask cfg el inp s = (.blocked, s)
    ∧ resumeWake inp rs t
      = (.staged i,
          { t with
            bucket := t.bucket.set i
              ⟨true, if inp.dumpSize = 0 then rs - inp.offset else inp.dumpSize,
                inp.offset, inp.name⟩,
            queue := t.queue ++
              [⟨true, if inp.dumpSize = 0 then rs - inp.offset else inp.dumpSize,
                inp.offset, inp.name⟩] }) := by
  obtain ⟨f1, f2⟩ := m_allocate_fail s.m1 s.m2 rs inp.backendAllocOk halloc
  constructor
  · simp [AddTask, hg, hgmm, hsz, hri, hfree, halloc, hdl, hne, f1, f2]
  · simp [resumeWake, hwake, stagePath, hcopy]

/-- C1 amended witness: a bucket holding one occupied buffer, tier-1 cap 10
exhausted by a 16-byte request, allowDataLoss=false: the call blocks with
state unchanged; a woken state whose buffer at index 0 is free is then staged. -/
theorem addTask_blocks_nonempty_bucket_witness :
    AddTask ⟨false, 0, 0⟩ 0 ⟨"n", 16, 0, some 16, true, false, true⟩
        ⟨[⟨true, 1, 0, "x"⟩], [], ⟨.systemMemory, 10, 0⟩, ⟨.videoMemory, 0, 0⟩, []⟩
      = (.blocked,
          ⟨[⟨true, 1, 0, "x"⟩], [], ⟨.systemMemory, 10, 0⟩, ⟨.videoMemory, 0, 0⟩, []⟩)
    ∧ resumeWake ⟨"n", 16, 0, some 16, true, false, true⟩ 16
        ⟨[⟨false, 1, 0, "x"⟩], [], ⟨.systemMemory, 10, 0⟩, ⟨.videoMemory, 0, 0⟩, []⟩
      = (.staged 0,
          { bucket := [⟨false, 1, 0, "x"⟩].set 0
              ⟨true, if (16 : Nat) = 0 then 16 - 0 else 16, 0, "n"⟩,
            queue := [] ++ [⟨true, if (16 : Nat) = 0 then 16 - 0 else 16, 0, "n"⟩],
            m1 := ⟨.systemMemory, 10, 0⟩, m2 := ⟨.videoMemory, 0, 0⟩,
            errors := [] }) :=
  addTask_blocks_nonempty_bucket ⟨false, 0, 0⟩ 0
    ⟨"n", 16, 0, some 16, true, false, true⟩
    ⟨[⟨true, 1, 0, "x"⟩], [], ⟨.systemMemory, 10, 0⟩, ⟨.videoMemory, 0, 0⟩, []⟩
    ⟨[⟨false, 1, 0, "x"⟩], [], ⟨.systemMemory, 10, 0⟩, ⟨.videoMemory, 0, 0⟩, []⟩
    16 0 (by decide) rfl rfl (by decide) rfl (by decide) (by decide) (by decide)
    (by decide) rfl

/-- One queued dump job: jid is the ghost submission number and occupied the
flag of its staging buffer (set when AddTask stages it, cleared when its dump
completes). -/
structure Job where
  jid : Nat
  occupied : Bool
deriving DecidableEq

/-- The scheduler-related state: m_resQueue, the completed dumps in
completion order, the job held by the async worker, m_ready4Dump,
m_stopScheduler, and the ghost list of submissions in order. -/
structure SchedState where
  queue : List Job
  dumped : List Job
  inFlight : Option Nat
  ready4Dump : Bool
  stopScheduler : Bool
  submitted : List Nat
deriving DecidableEq

/-- State after construction: empty queue, m_ready4Dump = true,
m_stopScheduler = false. -/
def initSched : SchedState := ⟨[], [], none, true, false, []⟩

/-- A producer stages a job: AddTask marks the buffer occupied and pushes it
onto m_resQueue (source lines 325-329). -/
def pushJob (s : SchedState) (j : Nat) : SchedState :=
  { s with queue := s.queue ++ [⟨j, true⟩], submitted := s.submitted ++ [j] }

/-- The scheduler reads the queue front and clears m_ready4Dump before
handing the job to the async worker, without popping (source lines 405-409). -/
def doDispatch (s : SchedState) : SchedState :=
  { s with ready4Dump := false, inFlight := (s.queue.head?).map Job.jid }

/-- The async worker finishes DoDump, releases the front buffer
(occupied = false), pops it and raises m_ready4Dump (source lines 413-421). -/
def doComplete (s : SchedState) : SchedState :=
  { s with
    dumped := s.dumped ++ (s.queue.take 1).map (fun j => ⟨j.jid, false⟩),
    queue := s.queue.drop 1,
    inFlight := none,
    ready4Dump := true }

/-- The destructor raises m_stopScheduler (source lines 220-223). -/
def doStop (s : SchedState) : SchedState :=
  { s with stopScheduler := true }

/-- Interleaving of producers, the scheduler loop and the async worker; the
shared mutex of the source makes each step atomic. The scheduler dispatches
only when m_ready4Dump holds, the queue is non-empty and no stop was
requested (source lines 394-405); the worker completes only while a job is
in flight. -/
inductive SchedStep : SchedState → SchedState → Prop where
  | enqueue (s : SchedState) (j : Nat) : SchedStep s (pushJob s j)
  | dispatch (s : SchedState) (h1 : s.ready4Dump = true) (h2 : s.queue ≠ [])
      (h3 : s.stopScheduler = false) : SchedStep s (doDispatch s)
  | complete (s : SchedState) (h : s.inFlight ≠ none) : SchedStep s (doComplete s)
  | stop (s : SchedState) : SchedStep s (doStop s)

/-- States reachable from construction. -/
inductive SchedReachable : SchedState → Prop where
  | init : SchedReachable initSched
  | step {s t : SchedState} : SchedReachable s → SchedStep s t → SchedReachable t

/-- Every job of the list has its buffer released. -/
def allUnoccupied (l : List Job) : Bool := l.all fun j => !j.occupied

/-- The scheduler invariant: m_ready4Dump holds exactly when no job is in
flight; the in-flight job, if any, is the queue front (taken, not yet
popped); the submissions are exactly the completed dumps followed by the
queue, in order; completed dumps have released buffers. -/
def SchedInv (s : SchedState) : Prop :=
  (s.ready4Dump = true ↔ s.inFlight = none)
  ∧ ((s.queue.head?).map Job.jid = s.inFlight ∨ s.inFlight = none)
  ∧ s.submitted = s.dumped.map Job.jid ++ s.queue.map Job.jid
  ∧ allUnoccupied s.dumped = true

theorem schedInv_holds (s : SchedState) (h : SchedReachable s) : SchedInv s := by
  induction h with
  | init =>
    exact ⟨by simp [initSched], by simp [initSched], by simp [initSched],
      by simp [initSched, allUnoccupied]⟩
  | @step u t hr hs ih =>
    obtain ⟨i1, i2, i3, i4⟩ := ih
    cases hs with
    | enqueue j =>
      refine ⟨by simpa [pushJob] using i1, ?_, ?_, by simpa [pushJob] using i4⟩
      · rcases i2 with hqf | hnone
        · cases hq : u.queue with
          | nil =>
            right
            rw [hq] at hqf
            simpa [pushJob] using hqf.symm
          | cons a tl =>
            left
            rw [hq] at hqf
            simpa [pushJob, hq] using hqf
        · right
          simpa [pushJob] using hnone
      · simp [pushJob, i3]
    | dispatch h1 h2 h3 =>
      refine ⟨?_, ?_, by simpa [doDispatch] using i3, by simpa [doDispatch] using i4⟩
      · cases hq : u.queue with
        | nil => exact absurd hq h2
        | cons a tl => simp [doDispatch, hq]
      · left; rfl
    | complete h =>
      rcases i2 with hqf | hnone
      · cases hq : u.queue with
        | nil =>
          rw [hq] at hqf
          exact absurd hqf.symm (by simpa using h)
        | cons a tl =>
          refine ⟨by simp [doComplete], Or.inr rfl, ?_, ?_⟩
          · rw [hq] at i3
            simpa [doComplete, hq] using i3
          · simp only [doComplete, hq, List.take, List.map_cons, List.map_nil,
              allUnoccupied, List.all_append]
            simp only [allUnoccupied] at i4
            simp [i4]
      · exact absurd hnone h
    | stop =>
      exact ⟨by simpa [doStop] using i1, by simpa [doStop] using i2,
        by simpa [doStop] using i3, by simpa [doStop] using i4⟩

/-- C7: in every reachable scheduler state, m_ready4Dump holds exactly when
no dump is in flight (so a new job is dispatched only when none is running —
single-flight), the in-flight job is always the queue front and is popped
only at completion, and the completed dumps followed by the pending queue
reproduce the submission order exactly — dumps complete in FIFO order. -/
theorem scheduler_single_flight_fifo (s : SchedState) (h : SchedReachable s) :
    (s.ready4Dump = true ↔ s.inFlight = none)
    ∧ ((s.queue.head?).map Job.jid = s.inFlight ∨ s.inFlight = none)
    ∧ s.submitted = s.dumped.map Job.jid ++ s.queue.map Job.jid :=
  ⟨(schedInv_holds s h).1, (schedInv_holds s h).2.1, (schedInv_holds s h).2.2.1⟩

/-- C7 witness: the invariant at the concrete reachable state obtained by
enqueue 7, dispatch, enqueue 8, stop. -/
theorem scheduler_single_flight_fifo_witness :
    ((doStop (pushJob (doDispatch (pushJob initSched 7)) 8)).ready4Dump = true
      ↔ (doStop (pushJob (doDispatch (pushJob initSched 7)) 8)).inFlight = none)
    ∧ (((doStop (pushJob (doDispatch (pushJob initSched 7)) 8)).queue.head?).map Job.jid
        = (doStop (pushJob (doDispatch (pushJob initSched 7)) 8)).inFlight
      ∨ (doStop (pushJob (doDispatch (pushJob initSched 7)) 8)).inFlight = none)
    ∧ (doStop (pushJob (doDispatch (pushJob initSched 7)) 8)).submitted
      = (doStop (pushJob (doDispatch (pushJob initSched 7)) 8)).dumped.map Job.jid
        ++ (doStop (pushJob (doDispatch (pushJob initSched 7)) 8)).queue.map Job.jid :=
  scheduler_single_flight_fifo _
    (SchedReachable.step
      (SchedReachable.step
        (SchedReachable.step
          (SchedReachable.step SchedReachable.init (SchedStep.enqueue initSched 7))
          (SchedStep.dispatch (pushJob initSched 7) (by decide) (by decide) (by decide)))
        (SchedStep.enqueue (doDispatch (pushJob initSched 7)) 8))
      (SchedStep.stop (pushJob (doDispatch (pushJob initSched 7)) 8)))

/-- The synchronous drain loop of source lines 433-438: dump the front,
release its buffer, pop, until the queue is empty. -/
def drainLoop : List Job → List Job → List Job
  | [], dumped => dumped
  | j :: q, dumped => drainLoop q (dumped ++ [⟨j.jid, false⟩])

/-- Shutdown semantics (destructor lines 216-231 joining ScheduleTasks lines
426-438): wait for the outstanding future — completing any in-flight job —
then run the synchronous drain loop on the remaining queue. -/
def destructorDrain (s : SchedState) : SchedState :=
  let s1 := if s.inFlight = none then s else doComplete s
  { s1 with dumped := drainLoop s1.queue s1.dumped, queue := [] }

theorem drainLoop_eq (q : List Job) :
    ∀ d, drainLoop q d = d ++ q.map (fun j => (⟨j.jid, false⟩ : Job)) := by
  induction q with
  | nil => intro d; simp [drainLoop]
  | cons a t ih => intro d; simp [drainLoop, ih]

theorem allUnoccupied_append (a b : List Job) :
    allUnoccupied (a ++ b) = (allUnoccupied a && allUnoccupied b) := by
  simp [allUnoccupied]

theorem allUnoccupied_released (q : List Job) :
    allUnoccupied (q.map fun j => (⟨j.jid, false⟩ : Job)) = true := by
  induction q with
  | nil => simp [allUnoccupied]
  | cons a t ih => simp_all [allUnoccupied]

/-- C8: from any reachable state, the shutdown sequence — stop signal, wait
for the in-flight dump, then synchronously drain the queue in FIFO order —
leaves an empty queue, has dumped exactly the submitted jobs in submission
order (no queued job skipped), and leaves every dumped job's buffer
unoccupied. -/
theorem shutdown_drains_all (s : SchedState) (h : SchedReachable s) :
    (destructorDrain s).queue = []
    ∧ (destructorDrain s).dumped.map Job.jid = s.submitted
    ∧ allUnoccupied (destructorDrain s).dumped = true := by
  obtain ⟨i1, i2, i3, i4⟩ := schedInv_holds s h
  by_cases hf : s.inFlight = none
  · refine ⟨rfl, ?_, ?_⟩
    · simp [destructorDrain, hf, drainLoop_eq, i3, List.map_map, Function.comp]
    · simp [destructorDrain, hf, drainLoop_eq, allUnoccupied_append,
        allUnoccupied_released, i4]
  · rcases i2 with hqf | hnone
    · cases hq : s.queue with
      | nil =>
        rw [hq] at hqf
        exact absurd hqf.symm (by simpa using hf)
      | cons a t =>
        refine ⟨rfl, ?_, ?_⟩
        · rw [hq] at i3
          simp [destructorDrain, hf, doComplete, hq, drainLoop_eq, i3,
            List.map_map, Function.comp]
        · have i4x : ∀ x ∈ s.dumped, x.occupied = false := by
            simpa [allUnoccupied] using i4
          simp [destructorDrain, hf, doComplete, hq, drainLoop_eq,
            allUnoccupied_append, allUnoccupied_released, allUnoccupied]
          exact i4x
    · exact absurd hnone hf

/-- C8 witness: shutdown from the concrete reachable state obtained by
enqueue 3, dispatch (job 3 in flight), enqueue 4, stop: the drain completes
job 3 then job 4 and releases both buffers. -/
theorem shutdown_drains_all_witness :
    (destructorDrain (doStop (pushJob (doDispatch (pushJob initSched 3)) 4))).queue = []
    ∧ (destructorDrain (doStop (pushJob (doDispatch (pushJob initSched 3)) 4))).dumped.map
        Job.jid
      = (doStop (pushJob (doDispatch (pushJob initSched 3)) 4)).submitted
    ∧ allUnoccupied
        (destructorDrain (doStop (pushJob (doDispatch (pushJob initSched 3)) 4))).dumped
      = true :=
  shutdown_drains_all _
    (SchedReachable.step
      (SchedReachable.step
        (SchedReachable.step
          (SchedReachable.step SchedReachable.init (SchedStep.enqueue initSched 3))
          (SchedStep.dispatch (pushJob initSched 3) (by decide) (by decide) (by decide)))
        (SchedStep.enqueue (doDispatch (pushJob initSched 3)) 4))
      (SchedStep.stop (pushJob (doDispatch (pushJob initSched 3)) 4)))
